import Mathlib

/-!
Verification of the customer API test-stub server (src/api/app.py):
OAuth client-credentials token issuance, token verification, the in-memory
customer store (create / update), and the customer search matcher.

Machine integers do not matter here (Python integers are unbounded and all
quantities are small); times are modelled as natural-number Unix timestamps.
-/

set_option maxHeartbeats 1000000

namespace ApiStub

/-- Association-list lookup keyed by strings, modelling Python dict access
(`d[k]` / `d.get(k)`).  Python dicts have unique keys, so the model takes the
first binding. -/
def alookup {α : Type} : List (String × α) → String → Option α
  | [], _ => none
  | (k, v) :: rest, key => if k = key then some v else alookup rest key

/-- One registration of the OAUTH_CLIENTS table in src/api/app.py: a client
secret together with the client's allowed scopes. -/
structure OAuthClient where
  client_secret : String
  scopes : List String
deriving DecidableEq

/-- The OAUTH_CLIENTS registry (src/api/app.py lines 57-66). -/
def OAUTH_CLIENTS : List (String × OAuthClient) :=
  [("demo-client-id",
     { client_secret := "demo-client-secret",
       scopes := ["customer:read", "customer:write", "vulnerability:read", "vulnerability:write"] }),
   ("performance-test-client",
     { client_secret := "test-secret-123",
       scopes := ["customer:read", "customer:write", "vulnerability:read", "vulnerability:write"] })]

/-- Outcome of POST /oauth/token.  A success carries the JWT payload fields
that the handler puts into the token (granted scopes, subject client id,
issued-at and expiry timestamps); the signing step itself (jwt.encode) is a
bijective wrapper around the payload and is not modelled.  An error carries
the HTTP status and the (code, title, details) triple passed to
create_error_response. -/
inductive TokenResult where
  | ok (grantedScopes : List String) (sub : String) (iat expiresAt : Nat)
  | err (status : Nat) (code title details : String)
deriving DecidableEq

/-- The granted-scope computation of get_token on the effective requested
scopes (src/api/app.py lines 312-316): filter the requested scopes to the
allowed ones; an empty filtrate falls back to the fixed default scope when
something was requested, and to all allowed scopes otherwise. -/
def grantFromRequested (allowed requested : List String) : List String :=
  if (requested.filter (fun s => allowed.contains s)).isEmpty && !requested.isEmpty then
    ["customer:read"]
  else if (requested.filter (fun s => allowed.contains s)).isEmpty then allowed
  else requested.filter (fun s => allowed.contains s)

/-- Scope negotiation of get_token (src/api/app.py lines 307-316): the
requested scopes default to the allowed scopes when the request carried
none, then the grant is computed from them. -/
def negotiateScopes (allowed scope : List String) : List String :=
  grantFromRequested allowed (if scope.isEmpty then allowed else scope)

/-- get_token (src/api/app.py lines 276-339).  `scope` is the request's scope
string already split on whitespace, as the handler does on receipt. -/
def get_token (clients : List (String × OAuthClient))
    (client_id client_secret grant_type : String)
    (scope : List String) (now : Nat) : TokenResult :=
  if grant_type ≠ "client_credentials" then
    .err 400 "unsupported_grant_type" "Unsupported Grant Type"
      "Only client_credentials grant type is supported"
  else
    match alookup clients client_id with
    | none => .err 401 "invalid_client" "Invalid Client" "Client authentication failed"
    | some client =>
      if client.client_secret ≠ client_secret then
        .err 401 "invalid_client" "Invalid Client" "Client authentication failed"
      else
        .ok (negotiateScopes client.scopes scope) client_id now (now + 3600)

/-- The decoded payload of a bearer token, restricted to the fields
require_auth consults. -/
structure TokenPayload where
  scopes : List String
  exp : Nat
  client_id : String
deriving DecidableEq

/-- Outcome of the require_auth check: either the request proceeds with the
decoded payload attached, or an error response is produced. -/
inductive VerifyResult where
  | ok (payload : TokenPayload)
  | err (status : Nat) (code title details : String)
deriving DecidableEq

/-- Modelled from the spec: the expiry comparison happens inside jwt.decode
(the PyJWT library, which is not part of src/); per the spec a token is
Expired exactly when now > expiresAt, the boundary now = expiresAt still
being valid. -/
def isExpired (expiresAt now : Nat) : Bool := decide (expiresAt < now)

/-- require_auth (src/api/app.py lines 73-104), after extraction of the
bearer token from the Authorization header.  `sigValid` abstracts PyJWT's
signature validation of the presented token against the process key; the
expiry comparison is the spec-modelled `isExpired`; the scope check is the
handler's own code (lines 88-92). -/
def require_auth_check (sigValid : Bool) (payload : TokenPayload) (now : Nat)
    (required_scopes : List String) : VerifyResult :=
  if !sigValid then
    .err 401 "API-401" "Invalid Token" "JWT token is invalid"
  else if isExpired payload.exp now then
    .err 401 "API-401" "Token Expired" "JWT token has expired"
  else if !required_scopes.isEmpty
      && !(required_scopes.any (fun scope => payload.scopes.contains scope)) then
    .err 403 "API-403" "Forbidden" "Insufficient permissions"
  else
    .ok payload

theorem contains_true_iff_mem (l : List String) (s : String) :
    l.contains s = true ↔ s ∈ l := by
  simp

theorem grantFromRequested_subset (allowed requested : List String)
    (hread : "customer:read" ∈ allowed) :
    ∀ s ∈ grantFromRequested allowed requested, s ∈ allowed := by
  intro s hs
  unfold grantFromRequested at hs
  split at hs
  · simp only [List.mem_singleton] at hs
    exact hs ▸ hread
  · split at hs
    · exact hs
    · exact (contains_true_iff_mem allowed s).mp (List.of_mem_filter hs)

theorem negotiateScopes_subset (allowed scope : List String)
    (hread : "customer:read" ∈ allowed) :
    ∀ s ∈ negotiateScopes allowed scope, s ∈ allowed :=
  fun s hs => grantFromRequested_subset allowed _ hread s hs

theorem registry_has_read (cid : String) (c : OAuthClient)
    (h : alookup OAUTH_CLIENTS cid = some c) : "customer:read" ∈ c.scopes := by
  simp only [OAUTH_CLIENTS, alookup] at h
  split at h
  · cases h
    decide
  · split at h
    · cases h
      decide
    · cases h

/-- C1: for every registered client and every successful token issuance,
the granted scopes are a subset of that client's allowed scopes, the
empty-intersection fallback branch included (the fixed fallback scope
customer:read is allowed for every registered client). -/
theorem c1_granted_scopes_subset_allowed
    (cid secret gt : String) (scope : List String) (now : Nat)
    (g : List String) (sub : String) (iat e : Nat) (c : OAuthClient)
    (hok : get_token OAUTH_CLIENTS cid secret gt scope now = .ok g sub iat e)
    (hc : alookup OAUTH_CLIENTS cid = some c) :
    ∀ s ∈ g, s ∈ c.scopes := by
  unfold get_token at hok
  by_cases hgt : gt ≠ "client_credentials"
  · simp only [if_pos hgt] at hok
    exact TokenResult.noConfusion hok
  · simp only [if_neg hgt, hc] at hok
    by_cases hsec : c.client_secret ≠ secret
    · simp only [if_pos hsec] at hok
      exact TokenResult.noConfusion hok
    · simp only [if_neg hsec] at hok
      cases hok
      exact negotiateScopes_subset c.scopes scope (registry_has_read cid c hc)

theorem c1_granted_scopes_subset_allowed_witness :
    (get_token OAUTH_CLIENTS "demo-client-id" "demo-client-secret" "client_credentials"
        ["admin:everything"] 1000 =
      .ok ["customer:read"] "demo-client-id" 1000 4600) ∧
    ∀ s ∈ (["customer:read"] : List String),
      s ∈ ["customer:read", "customer:write", "vulnerability:read", "vulnerability:write"] := by
  refine ⟨by decide, ?_⟩
  have h := c1_granted_scopes_subset_allowed "demo-client-id" "demo-client-secret"
    "client_credentials" ["admin:everything"] 1000 ["customer:read"] "demo-client-id" 1000 4600
    { client_secret := "demo-client-secret",
      scopes := ["customer:read", "customer:write", "vulnerability:read", "vulnerability:write"] }
    (by decide) (by decide)
  exact h

theorem grant_self (allowed : List String) : grantFromRequested allowed allowed = allowed := by
  have hfil : allowed.filter (fun s => allowed.contains s) = allowed :=
    List.filter_eq_self.mpr (fun a ha => (contains_true_iff_mem allowed a).mpr ha)
  unfold grantFromRequested
  rw [hfil]
  rcases allowed with _ | ⟨a, l⟩ <;> simp

theorem negotiate_empty (allowed : List String) :
    negotiateScopes allowed [] = allowed := by
  unfold negotiateScopes
  exact grant_self allowed

theorem negotiate_fallback (allowed scope : List String) (hne : scope ≠ [])
    (hint : scope.filter (fun s => allowed.contains s) = []) :
    negotiateScopes allowed scope = ["customer:read"] := by
  have h1 : scope.isEmpty = false := by simpa using hne
  unfold negotiateScopes grantFromRequested
  rw [h1]
  simp only [Bool.false_eq_true, if_false]
  rw [hint, h1]
  rfl

theorem negotiate_inter (allowed scope : List String)
    (hfil : scope.filter (fun s => allowed.contains s) ≠ []) :
    negotiateScopes allowed scope = scope.filter (fun s => allowed.contains s) := by
  have hne : scope ≠ [] := by
    intro h
    subst h
    simp at hfil
  have h1 : scope.isEmpty = false := by simpa using hne
  have h2 : (scope.filter (fun s => allowed.contains s)).isEmpty = false := by
    simpa using hfil
  unfold negotiateScopes grantFromRequested
  rw [h1]
  simp only [Bool.false_eq_true, if_false]
  rw [h2]
  rfl

/-- C2: for every valid client credential, issuance succeeds and the granted
scopes are: all allowed scopes when no scope was requested; the fixed default
scope customer:read when the requested scopes are non-empty but meet none of
the allowed ones; otherwise the requested-order intersection of requested and
allowed scopes. -/
theorem c2_scope_negotiation (cid : String) (c : OAuthClient) (scope : List String) (now : Nat)
    (hc : alookup OAUTH_CLIENTS cid = some c) :
    get_token OAUTH_CLIENTS cid c.client_secret "client_credentials" scope now
      = .ok (negotiateScopes c.scopes scope) cid now (now + 3600)
    ∧ (scope = [] → negotiateScopes c.scopes scope = c.scopes)
    ∧ (scope ≠ [] → scope.filter (fun s => c.scopes.contains s) = [] →
        negotiateScopes c.scopes scope = ["customer:read"])
    ∧ (scope.filter (fun s => c.scopes.contains s) ≠ [] →
        negotiateScopes c.scopes scope = scope.filter (fun s => c.scopes.contains s)) := by
  refine ⟨?_, ?_, ?_, ?_⟩
  · unfold get_token
    simp [hc]
  · intro h
    subst h
    exact negotiate_empty c.scopes
  · intro h1 h2
    exact negotiate_fallback c.scopes scope h1 h2
  · intro h
    exact negotiate_inter c.scopes scope h

theorem c2_scope_negotiation_witness :
    get_token OAUTH_CLIENTS "performance-test-client" "test-secret-123" "client_credentials"
        ["vulnerability:write", "bogus:scope"] 7
      = .ok ["vulnerability:write"] "performance-test-client" 7 3607 :=
  (c2_scope_negotiation "performance-test-client"
    { client_secret := "test-secret-123",
      scopes := ["customer:read", "customer:write", "vulnerability:read", "vulnerability:write"] }
    ["vulnerability:write", "bogus:scope"] 7 (by decide)).1.trans (by decide)

/-- C3: a token request with an unknown client id and one with a known client
id but wrong secret produce the same error: same 401 status and the same
(code, title, details) triple, so the caller cannot tell which check
failed. -/
theorem c3_invalid_client_indistinguishable
    (cid1 secret1 cid2 secret2 : String) (c : OAuthClient)
    (scope1 scope2 : List String) (now1 now2 : Nat)
    (h1 : alookup OAUTH_CLIENTS cid1 = none)
    (h2 : alookup OAUTH_CLIENTS cid2 = some c)
    (hsec : c.client_secret ≠ secret2) :
    get_token OAUTH_CLIENTS cid1 secret1 "client_credentials" scope1 now1
      = .err 401 "invalid_client" "Invalid Client" "Client authentication failed"
    ∧ get_token OAUTH_CLIENTS cid2 secret2 "client_credentials" scope2 now2
      = .err 401 "invalid_client" "Invalid Client" "Client authentication failed" := by
  constructor
  · unfold get_token
    simp [h1]
  · unfold get_token
    simp [h2, hsec]

theorem c3_invalid_client_indistinguishable_witness :
    get_token OAUTH_CLIENTS "no-such-client" "whatever" "client_credentials" [] 1
      = .err 401 "invalid_client" "Invalid Client" "Client authentication failed"
    ∧ get_token OAUTH_CLIENTS "demo-client-id" "wrong-secret" "client_credentials"
        ["customer:read"] 2
      = .err 401 "invalid_client" "Invalid Client" "Client authentication failed" :=
  c3_invalid_client_indistinguishable "no-such-client" "whatever" "demo-client-id" "wrong-secret"
    { client_secret := "demo-client-secret",
      scopes := ["customer:read", "customer:write", "vulnerability:read", "vulnerability:write"] }
    [] ["customer:read"] 1 2 (by decide) (by decide) (by decide)

/-- C4: for a correctly signed token, verification fails with the Expired
error exactly when the current time is strictly greater than the token's
expiry; at the boundary now = expiresAt the token is still accepted (shown
with no required scopes, where verification succeeds outright). -/
theorem c4_expired_iff_now_gt_exp (p : TokenPayload) (now : Nat) (required : List String) :
    ((require_auth_check true p now required
        = .err 401 "API-401" "Token Expired" "JWT token has expired") ↔ p.exp < now)
    ∧ require_auth_check true p p.exp [] = .ok p := by
  refine ⟨⟨?_, ?_⟩, ?_⟩
  · intro h
    by_contra he
    have hd : isExpired p.exp now = false := by
      simp only [isExpired]
      exact decide_eq_false he
    unfold require_auth_check at h
    rw [hd] at h
    simp only [Bool.not_true, Bool.false_eq_true, if_false] at h
    split at h
    · simp at h
    · exact VerifyResult.noConfusion h
  · intro he
    have hd : isExpired p.exp now = true := by
      simp only [isExpired]
      exact decide_eq_true he
    unfold require_auth_check
    rw [hd]
    simp
  · have hd : isExpired p.exp p.exp = false := by
      simp [isExpired]
    unfold require_auth_check
    rw [hd]
    rfl

/-- C5: for a validly signed, unexpired token, verification fails with the
InsufficientScope error exactly when the required scopes are non-empty and
none of them is among the token's granted scopes; one matching required
scope suffices (OR, not AND), and empty required scopes always pass. -/
theorem c5_insufficient_scope_or_semantics (p : TokenPayload) (now : Nat)
    (required : List String) (hnotexp : ¬ p.exp < now) :
    ((require_auth_check true p now required
        = .err 403 "API-403" "Forbidden" "Insufficient permissions")
      ↔ required ≠ [] ∧ ∀ s ∈ required, s ∉ p.scopes)
    ∧ ((∃ s ∈ required, s ∈ p.scopes) → require_auth_check true p now required = .ok p)
    ∧ require_auth_check true p now [] = .ok p := by
  have hexp : isExpired p.exp now = false := by
    simp only [isExpired]
    exact decide_eq_false hnotexp
  refine ⟨⟨?_, ?_⟩, ?_, ?_⟩
  · intro h
    unfold require_auth_check at h
    rw [hexp] at h
    by_cases h1 : required.isEmpty = true
    · rw [h1] at h
      simp at h
    · have h1' : required.isEmpty = false := by simpa using h1
      rw [h1'] at h
      by_cases h2 : (required.any fun scope => p.scopes.contains scope) = true
      · rw [h2] at h
        simp at h
      · have h2' : (required.any fun scope => p.scopes.contains scope) = false := by
          simpa using h2
        refine ⟨by simpa using h1', ?_⟩
        intro s hs hmem
        rw [List.any_eq_false] at h2'
        exact h2' s hs ((contains_true_iff_mem p.scopes s).mpr hmem)
  · rintro ⟨hne, hnone⟩
    have h1 : required.isEmpty = false := by simpa using hne
    have h2 : (required.any fun scope => p.scopes.contains scope) = false := by
      rw [List.any_eq_false]
      intro s hs h3
      exact hnone s hs ((contains_true_iff_mem p.scopes s).mp h3)
    unfold require_auth_check
    rw [hexp, h1, h2]
    rfl
  · rintro ⟨s, hs, hmem⟩
    have h2 : (required.any fun scope => p.scopes.contains scope) = true := by
      rw [List.any_eq_true]
      exact ⟨s, hs, (contains_true_iff_mem p.scopes s).mpr hmem⟩
    unfold require_auth_check
    rw [hexp, h2, Bool.not_true, Bool.and_false]
    rfl
  · unfold require_auth_check
    rw [hexp]
    rfl

theorem c5_insufficient_scope_or_semantics_witness :
    (require_auth_check true { scopes := ["customer:read"], exp := 100, client_id := "demo" }
        50 ["customer:write", "customer:read"]
      = .ok { scopes := ["customer:read"], exp := 100, client_id := "demo" })
    ∧ (require_auth_check true { scopes := ["customer:read"], exp := 100, client_id := "demo" }
        50 ["vulnerability:write"]
      = .err 403 "API-403" "Forbidden" "Insufficient permissions") := by
  constructor
  · exact (c5_insufficient_scope_or_semantics
      { scopes := ["customer:read"], exp := 100, client_id := "demo" } 50
      ["customer:write", "customer:read"] (by decide)).2.1
      ⟨"customer:read", by decide, by decide⟩
  · exact (c5_insufficient_scope_or_semantics
      { scopes := ["customer:read"], exp := 100, client_id := "demo" } 50
      ["vulnerability:write"] (by decide)).1.mpr
      ⟨by decide, by decide⟩

/-- JSON-like values, as handled by the customer endpoints.  Objects are
insertion-ordered association lists, like Python dicts.  Numbers, booleans
and null do not occur in the code paths verified here and are representable
as strings without loss for those paths. -/
inductive JValue where
  | str : String → JValue
  | obj : List (String × JValue) → JValue
  | arr : List JValue → JValue

/-- Python dict assignment `d[k] = v`: replaces the value in place if the key
exists (keeping its position), otherwise appends the new binding. -/
def dictInsert {α : Type} : List (String × α) → String → α → List (String × α)
  | [], key, v => [(key, v)]
  | (k, w) :: rest, key, v =>
    if k = key then (key, v) :: rest else (k, w) :: dictInsert rest key v

/-- Python `old.update(nw)` on dicts: existing keys keep their position and
take the new value; keys only in `nw` are appended in `nw`'s order. -/
def dictUpdate {α : Type} (old nw : List (String × α)) : List (String × α) :=
  old.map (fun kv =>
    match alookup nw kv.1 with
    | some v => (kv.1, v)
    | none => kv)
  ++ nw.filter (fun kv => (alookup old kv.1).isNone)

/-- First-some choice on options, used to state dict-merge lookups. -/
def optOr {α : Type} : Option α → Option α → Option α
  | some v, _ => some v
  | none, b => b

theorem alookup_dictInsert_self {α : Type} (l : List (String × α)) (k : String) (v : α) :
    alookup (dictInsert l k v) k = some v := by
  induction l with
  | nil => simp [dictInsert, alookup]
  | cons kv rest ih =>
    obtain ⟨k', w⟩ := kv
    by_cases h : k' = k
    · simp [dictInsert, h, alookup]
    · simp [dictInsert, h, alookup, ih]

theorem alookup_dictInsert_ne {α : Type} (l : List (String × α)) (k key : String) (v : α)
    (h : k ≠ key) : alookup (dictInsert l k v) key = alookup l key := by
  induction l with
  | nil => simp [dictInsert, alookup, h]
  | cons kv rest ih =>
    obtain ⟨k', w⟩ := kv
    by_cases h1 : k' = k
    · subst h1
      simp [dictInsert, alookup, h]
    · simp only [dictInsert, if_neg h1, alookup]
      by_cases h2 : k' = key
      · simp [h2]
      · simp [h2, ih]

theorem alookup_append {α : Type} (l1 l2 : List (String × α)) (key : String) :
    alookup (l1 ++ l2) key = optOr (alookup l1 key) (alookup l2 key) := by
  induction l1 with
  | nil => simp [alookup, optOr]
  | cons kv rest ih =>
    obtain ⟨k, v⟩ := kv
    by_cases h : k = key
    · simp [alookup, h, optOr]
    · simp [alookup, h, ih]

theorem alookup_map_update {α : Type} (nw old : List (String × α)) (key : String) :
    alookup (old.map (fun kv =>
      match alookup nw kv.1 with
      | some v => (kv.1, v)
      | none => kv)) key
    = (alookup old key).map (fun v0 => (alookup nw key).getD v0) := by
  induction old with
  | nil => simp [alookup]
  | cons kv rest ih =>
    obtain ⟨k, v⟩ := kv
    by_cases h : k = key
    · subst h
      rcases hnw : alookup nw k with _ | w
      · simp [alookup, hnw]
      · simp [alookup, hnw]
    · rcases hnw : alookup nw k with _ | w
      · simp [alookup, hnw, h, ih]
      · simp [alookup, hnw, h, ih]

theorem alookup_filter_absent {α : Type} (old nw : List (String × α)) (key : String) :
    alookup (nw.filter (fun kv => (alookup old kv.1).isNone)) key
    = if (alookup old key).isNone then alookup nw key else none := by
  induction nw with
  | nil => simp [alookup]
  | cons kv rest ih =>
    obtain ⟨k, v⟩ := kv
    by_cases h : k = key
    · subst h
      rcases hold : (alookup old k).isNone with _ | _
      · simp [List.filter_cons, hold, ih, alookup]
      · simp [List.filter_cons, hold, alookup]
    · rcases hold : (alookup old k).isNone with _ | _
      · simp [List.filter_cons, hold, ih, alookup, h]
      · simp [List.filter_cons, hold, ih, alookup, h]

theorem alookup_dictUpdate {α : Type} (old nw : List (String × α)) (key : String) :
    alookup (dictUpdate old nw) key = optOr (alookup nw key) (alookup old key) := by
  unfold dictUpdate
  rw [alookup_append, alookup_map_update, alookup_filter_absent]
  rcases hold : alookup old key with _ | v0 <;> rcases hnw : alookup nw key with _ | w <;>
    simp [optOr]

/-- generate_customer_id (src/api/app.py lines 120-122):
str(random.randint(100000000, 999999999)).  The random draw is modelled as
an explicit parameter `r`; the handler imposes no relation between `r` and
the store's existing ids. -/
def generate_customer_id (r : Nat) : String := toString r

/-- The creation audit extension object appended by create_customer
(src/api/app.py lines 484-492). -/
def creationAuditFields (nowIso clientId brand : String) : JValue :=
  .obj [("extensionFieldsType", .str "Customer"),
        ("extensionFieldsCategory", .str "Audit"),
        ("extensionField", .arr [
          .obj [("key", .str "createdDate"), ("value", .str nowIso)],
          .obj [("key", .str "createdBy"), ("value", .str clientId)],
          .obj [("key", .str "brand"), ("value", .str brand)]])]

/-- The modification audit extension object appended by update_customer
(src/api/app.py lines 547-554). -/
def updateAuditFields (nowIso clientId : String) : JValue :=
  .obj [("extensionFieldsType", .str "Customer"),
        ("extensionFieldsCategory", .str "Audit"),
        ("extensionField", .arr [
          .obj [("key", .str "lastModifiedDate"), ("value", .str nowIso)],
          .obj [("key", .str "lastModifiedBy"), ("value", .str clientId)]])]

/-- create_customer (src/api/app.py lines 458-500), after envelope
validation: `customerData` is the request body's data object, `r` the random
draw for the id.  The caller-supplied id (if any) is overwritten, default
attribute structure is supplied when absent, and the creation audit
extension is appended before the record is stored under the generated id.
Returns the new store together with the stored record, or none where the
Python code raises (attributes present but not an object, partyDetails
absent or not an object when attributes were supplied, extensionFields
present but not an array). -/
def create_customer (db : List (String × JValue)) (customerData : List (String × JValue))
    (r : Nat) (nowIso clientId brand : String) :
    Option (List (String × JValue) × List (String × JValue)) :=
  match alookup
      (if (alookup (dictInsert customerData "id" (.str (generate_customer_id r))) "attributes").isSome
       then dictInsert customerData "id" (.str (generate_customer_id r))
       else dictInsert (dictInsert customerData "id" (.str (generate_customer_id r)))
              "attributes" (.obj [("partyDetails", .obj [])]))
      "attributes" with
  | some (.obj attrs) =>
    match alookup attrs "partyDetails" with
    | some (.obj pd) =>
      match (alookup pd "extensionFields").getD (.arr []) with
      | .arr efs =>
        some
          (dictInsert db (generate_customer_id r)
            (.obj (dictInsert
              (if (alookup (dictInsert customerData "id" (.str (generate_customer_id r))) "attributes").isSome
               then dictInsert customerData "id" (.str (generate_customer_id r))
               else dictInsert (dictInsert customerData "id" (.str (generate_customer_id r)))
                      "attributes" (.obj [("partyDetails", .obj [])]))
              "attributes"
              (.obj (dictInsert attrs "partyDetails"
                (.obj (dictInsert pd "extensionFields"
                  (.arr (efs ++ [creationAuditFields nowIso clientId brand])))))))),
           dictInsert
              (if (alookup (dictInsert customerData "id" (.str (generate_customer_id r))) "attributes").isSome
               then dictInsert customerData "id" (.str (generate_customer_id r))
               else dictInsert (dictInsert customerData "id" (.str (generate_customer_id r)))
                      "attributes" (.obj [("partyDetails", .obj [])]))
              "attributes"
              (.obj (dictInsert attrs "partyDetails"
                (.obj (dictInsert pd "extensionFields"
                  (.arr (efs ++ [creationAuditFields nowIso clientId brand])))))))
      | _ => none
    | _ => none
  | _ => none

/-- update_customer (src/api/app.py lines 518-561) acting on a found record,
after envelope validation: shallow merge of the update's attributes object
into the record's attributes dict (Python dict.update), then append of the
modification audit extension under attributes.partyDetails.extensionFields
(creating partyDetails / extensionFields entries when absent, as the code
does).  Returns none where the Python code raises (a non-object where a
dict is indexed or merged, a non-array extensionFields). -/
def mergeUpdate (existing updateData : List (String × JValue)) (nowIso clientId : String) :
    Option (List (String × JValue)) :=
  match
    (match alookup updateData "attributes" with
     | none => some existing
     | some (.obj pa) =>
       match alookup existing "attributes" with
       | none => some (dictInsert existing "attributes" (.obj (dictUpdate [] pa)))
       | some (.obj ea) => some (dictInsert existing "attributes" (.obj (dictUpdate ea pa)))
       | some _ => none
     | some _ => none) with
  | none => none
  | some ex1 =>
    match alookup ex1 "attributes" with
    | some (.obj attrs) =>
      match alookup
          (if (alookup attrs "partyDetails").isSome then attrs
           else dictInsert attrs "partyDetails" (.obj []))
          "partyDetails" with
      | some (.obj pd) =>
        match (alookup pd "extensionFields").getD (.arr []) with
        | .arr efs =>
          some (dictInsert ex1 "attributes"
            (.obj (dictInsert
              (if (alookup attrs "partyDetails").isSome then attrs
               else dictInsert attrs "partyDetails" (.obj []))
              "partyDetails"
              (.obj (dictInsert pd "extensionFields"
                (.arr (efs ++ [updateAuditFields nowIso clientId])))))))
        | _ => none
      | _ => none
    | _ => none

/-- C6: updating an existing record with a partial shallow-merges at the top
level of attributes: every attribute key of the partial takes the partial's
value, every other existing attribute key keeps its value (partyDetails
excepted only in that the modification audit extension is appended inside
it), and the updated record's partyDetails carries the appended audit
extension as the last extensionFields entry. -/
theorem c6_update_merge_semantics
    (existing updateData ea pa : List (String × JValue)) (nowIso clientId : String)
    (hea : alookup existing "attributes" = some (.obj ea))
    (hpa : alookup updateData "attributes" = some (.obj pa))
    (hok : (mergeUpdate existing updateData nowIso clientId).isSome = true) :
    ∃ res ra, mergeUpdate existing updateData nowIso clientId = some res
      ∧ alookup res "attributes" = some (.obj ra)
      ∧ (∀ k, k ≠ "partyDetails" →
          alookup ra k = optOr (alookup pa k) (alookup ea k))
      ∧ ∃ pdf efs, alookup ra "partyDetails" = some (.obj pdf)
          ∧ alookup pdf "extensionFields"
              = some (.arr (efs ++ [updateAuditFields nowIso clientId])) := by
  simp only [mergeUpdate, hpa, hea, alookup_dictInsert_self] at hok ⊢
  rcases hpd : alookup (dictUpdate ea pa) "partyDetails" with _ | v
  · simp only [hpd, Option.isSome_none, Bool.false_eq_true, if_false,
      alookup_dictInsert_self] at hok ⊢
    refine ⟨_, _, rfl, alookup_dictInsert_self _ _ _, ?_, ?_⟩
    · intro k hk
      rw [alookup_dictInsert_ne _ _ _ _ (Ne.symm hk),
        alookup_dictInsert_ne _ _ _ _ (Ne.symm hk), alookup_dictUpdate]
    · exact ⟨_, _, alookup_dictInsert_self _ _ _, alookup_dictInsert_self _ _ _⟩
  · simp only [hpd, Option.isSome_some, if_true] at hok ⊢
    rcases v with s | pd | a
    · simp at hok
    · rcases hef : alookup pd "extensionFields" with _ | w
      · simp only [hef, Option.getD_none] at hok ⊢
        refine ⟨_, _, rfl, alookup_dictInsert_self _ _ _, ?_, ?_⟩
        · intro k hk
          rw [alookup_dictInsert_ne _ _ _ _ (Ne.symm hk), alookup_dictUpdate]
        · exact ⟨_, _, alookup_dictInsert_self _ _ _, alookup_dictInsert_self _ _ _⟩
      · rcases w with s | o | efs
        · simp [hef] at hok
        · simp [hef] at hok
        · simp only [hef, Option.getD_some] at hok ⊢
          refine ⟨_, _, rfl, alookup_dictInsert_self _ _ _, ?_, ?_⟩
          · intro k hk
            rw [alookup_dictInsert_ne _ _ _ _ (Ne.symm hk), alookup_dictUpdate]
          · exact ⟨_, _, alookup_dictInsert_self _ _ _, alookup_dictInsert_self _ _ _⟩
    · simp at hok

theorem c6_update_merge_semantics_witness :
    ∃ res ra, mergeUpdate
        [("id", JValue.str "1"),
         ("attributes", JValue.obj [("a", JValue.str "x"), ("partyDetails", JValue.obj [])])]
        [("attributes", JValue.obj [("a", JValue.str "y"), ("b", JValue.str "z")])]
        "2024-01-01T00:00:00" "demo-client-id"
      = some res
      ∧ alookup res "attributes" = some (.obj ra)
      ∧ (∀ k, k ≠ "partyDetails" →
          alookup ra k = optOr
            (alookup [("a", JValue.str "y"), ("b", JValue.str "z")] k)
            (alookup [("a", JValue.str "x"), ("partyDetails", JValue.obj [])] k))
      ∧ ∃ pdf efs, alookup ra "partyDetails" = some (.obj pdf)
          ∧ alookup pdf "extensionFields"
              = some (.arr (efs ++ [updateAuditFields "2024-01-01T00:00:00" "demo-client-id"])) :=
  c6_update_merge_semantics
    [("id", JValue.str "1"),
     ("attributes", JValue.obj [("a", JValue.str "x"), ("partyDetails", JValue.obj [])])]
    [("attributes", JValue.obj [("a", JValue.str "y"), ("b", JValue.str "z")])]
    [("a", JValue.str "x"), ("partyDetails", JValue.obj [])]
    [("a", JValue.str "y"), ("b", JValue.str "z")]
    "2024-01-01T00:00:00" "demo-client-id" rfl rfl rfl

theorem dictInsert_absent {α : Type} (l : List (String × α)) (k : String) (v : α)
    (h : alookup l k = none) : dictInsert l k v = l ++ [(k, v)] := by
  induction l with
  | nil => rfl
  | cons kv rest ih =>
    obtain ⟨k', w⟩ := kv
    simp only [alookup] at h
    by_cases h1 : k' = k
    · simp [h1] at h
    · simp only [dictInsert, if_neg h1, List.cons_append]
      rw [ih (by simpa [h1] using h)]

theorem alookup_none_iff_not_key {α : Type} (l : List (String × α)) (key : String) :
    alookup l key = none ↔ key ∉ l.map Prod.fst := by
  induction l with
  | nil => simp [alookup]
  | cons kv rest ih =>
    obtain ⟨k, v⟩ := kv
    by_cases h : k = key
    · subst h
      simp [alookup]
    · simp [alookup, h, ih, Ne.symm h]

theorem create_customer_db_shape
    (db customerData : List (String × JValue)) (r : Nat) (nowIso clientId brand : String)
    (db2 stored : List (String × JValue))
    (h : create_customer db customerData r nowIso clientId brand = some (db2, stored)) :
    db2 = dictInsert db (generate_customer_id r) (.obj stored) := by
  unfold create_customer at h
  split at h
  · split at h
    · split at h
      · cases h
        rfl
      · cases h
    · cases h
  · cases h

theorem create_customer_stored_shape
    (db customerData : List (String × JValue)) (r : Nat) (nowIso clientId brand : String)
    (db2 stored : List (String × JValue))
    (h : create_customer db customerData r nowIso clientId brand = some (db2, stored)) :
    alookup stored "id" = some (.str (generate_customer_id r)) := by
  unfold create_customer at h
  split at h
  · split at h
    · split at h
      · cases h
        rw [alookup_dictInsert_ne _ _ _ _ (by decide)]
        split
        · exact alookup_dictInsert_self _ _ _
        · rw [alookup_dictInsert_ne _ _ _ _ (by decide)]
          exact alookup_dictInsert_self _ _ _
      · cases h
    · cases h
  · cases h

theorem mergeUpdate_id_stable (existing updateData : List (String × JValue))
    (nowIso clientId : String) (res : List (String × JValue))
    (h : mergeUpdate existing updateData nowIso clientId = some res) :
    alookup res "id" = alookup existing "id" := by
  unfold mergeUpdate at h
  split at h
  · exact Option.noConfusion h
  · rename_i ex1 heq
    have hid : alookup ex1 "id" = alookup existing "id" := by
      split at heq
      · cases heq
        rfl
      · split at heq
        · cases heq
          rw [alookup_dictInsert_ne _ _ _ _ (by decide)]
        · cases heq
          rw [alookup_dictInsert_ne _ _ _ _ (by decide)]
        · cases heq
      · cases heq
    split at h
    · split at h
      · split at h
        · cases h
          rw [alookup_dictInsert_ne _ _ _ _ (by decide), hid]
        · cases h
      · cases h
    · cases h

/-- C7 counterexample to id uniqueness: with a record of id "123456789"
already in the store and the in-range draw r = 123456789, create_customer
reuses that exact id — the created customer's id coincides with an id
already present — and silently overwrites the existing record (the store
still has exactly one key afterwards). -/
theorem c7_counterexample_id_collision :
    generate_customer_id 123456789 ∈
      ([("123456789", JValue.obj [("id", JValue.str "123456789")])].map Prod.fst)
    ∧ ∃ p, create_customer [("123456789", JValue.obj [("id", JValue.str "123456789")])]
          [] 123456789 "2024-01-01T00:00:00" "demo-client-id" "AAMI" = some p
        ∧ p.1.map Prod.fst = ["123456789"] := by
  exact ⟨by decide, ⟨_, rfl, by decide⟩⟩

/-- C7 (amended): create_customer uses the raw random draw as the new id
with no freshness check, so a created id is distinct from the existing ids
only when the draw misses all of them — under that freshness assumption the
new store's key list is the old one extended by the new id and id
uniqueness is preserved — and an update never changes a record's id. -/
theorem c7_id_unique_only_if_draw_fresh_and_stable :
    (∀ (db customerData : List (String × JValue)) (r : Nat) (nowIso clientId brand : String),
       alookup db (generate_customer_id r) = none →
       (create_customer db customerData r nowIso clientId brand).isSome = true →
       ∃ db2 stored,
         create_customer db customerData r nowIso clientId brand = some (db2, stored)
         ∧ db2.map Prod.fst = db.map Prod.fst ++ [generate_customer_id r]
         ∧ ((db.map Prod.fst).Nodup → (db2.map Prod.fst).Nodup))
    ∧ (∀ (existing updateData : List (String × JValue)) (nowIso clientId : String),
       (mergeUpdate existing updateData nowIso clientId).isSome = true →
       ∃ res, mergeUpdate existing updateData nowIso clientId = some res
         ∧ alookup res "id" = alookup existing "id") := by
  constructor
  · intro db cd r nowIso clientId brand hfresh hok
    rcases hc : create_customer db cd r nowIso clientId brand with _ | p
    · rw [hc] at hok
      simp at hok
    · obtain ⟨db2, stored⟩ := p
      have hshape := create_customer_db_shape db cd r nowIso clientId brand db2 stored hc
      have habsent := dictInsert_absent db (generate_customer_id r) (.obj stored) hfresh
      refine ⟨db2, stored, rfl, ?_, ?_⟩
      · rw [hshape, habsent]
        simp
      · intro hnd
        rw [hshape, habsent, List.map_append]
        refine List.Nodup.append hnd (List.nodup_singleton _) ?_
        intro x hx1 hx2
        simp only [List.map_cons, List.map_nil, List.mem_singleton] at hx2
        subst hx2
        exact (alookup_none_iff_not_key db (generate_customer_id r)).mp hfresh hx1
  · intro existing ud nowIso clientId hok
    rcases hc : mergeUpdate existing ud nowIso clientId with _ | res
    · rw [hc] at hok
      simp at hok
    · exact ⟨res, rfl, mergeUpdate_id_stable existing ud nowIso clientId res hc⟩

theorem c7_id_unique_only_if_draw_fresh_and_stable_witness :
    (∃ db2 stored, create_customer [("1", JValue.obj [])] [] 234567890 "t" "c" "AAMI"
        = some (db2, stored)
      ∧ db2.map Prod.fst = [("1", JValue.obj [])].map Prod.fst ++ [generate_customer_id 234567890]
      ∧ (([("1", JValue.obj [])].map Prod.fst).Nodup → (db2.map Prod.fst).Nodup))
    ∧ ∃ res, mergeUpdate [("id", JValue.str "5"),
          ("attributes", JValue.obj [("partyDetails", JValue.obj [])])] [] "t" "c" = some res
        ∧ alookup res "id" = alookup [("id", JValue.str "5"),
            ("attributes", JValue.obj [("partyDetails", JValue.obj [])])] "id" :=
  ⟨c7_id_unique_only_if_draw_fresh_and_stable.1 [("1", JValue.obj [])] [] 234567890
      "t" "c" "AAMI" rfl rfl,
   c7_id_unique_only_if_draw_fresh_and_stable.2 [("id", JValue.str "5"),
      ("attributes", JValue.obj [("partyDetails", JValue.obj [])])] [] "t" "c" rfl⟩

/-- C10: the id of a stored created record is always the server-generated
str(r) for the server's own random draw r — any id supplied by the caller
in the request body is overwritten before storing — and the record is
stored in the database under that server-generated id. -/
theorem c10_created_id_is_server_generated
    (db customerData : List (String × JValue)) (r : Nat) (nowIso clientId brand : String)
    (hok : (create_customer db customerData r nowIso clientId brand).isSome = true) :
    ∃ db2 stored, create_customer db customerData r nowIso clientId brand = some (db2, stored)
      ∧ alookup stored "id" = some (.str (generate_customer_id r))
      ∧ alookup db2 (generate_customer_id r) = some (.obj stored) := by
  rcases hc : create_customer db customerData r nowIso clientId brand with _ | p
  · rw [hc] at hok
    simp at hok
  · obtain ⟨db2, stored⟩ := p
    refine ⟨db2, stored, rfl,
      create_customer_stored_shape db customerData r nowIso clientId brand db2 stored hc, ?_⟩
    rw [create_customer_db_shape db customerData r nowIso clientId brand db2 stored hc]
    exact alookup_dictInsert_self _ _ _

theorem c10_created_id_is_server_generated_witness :
    ∃ db2 stored, create_customer [] [("id", JValue.str "CALLER-CHOSEN-ID")]
        555123456 "t" "c" "AAMI" = some (db2, stored)
      ∧ alookup stored "id" = some (.str (generate_customer_id 555123456))
      ∧ alookup db2 (generate_customer_id 555123456) = some (.obj stored) :=
  c10_created_id_is_server_generated [] [("id", JValue.str "CALLER-CHOSEN-ID")] 555123456
    "t" "c" "AAMI" rfl

/-- Python dict .get(k) on a JSON value: the value when the receiver is an
object containing the key, none otherwise.  A non-object receiver makes
Python's .get raise AttributeError; this total read does not model that
raise, so theorems quantifying over stores must exclude such records — for
the name search, matchFirstNameChecked is the raise-aware embedding used
for that purpose. -/
def jGet : JValue → String → Option JValue
  | .obj fields, k => alookup fields k
  | _, _ => none

/-- Python dict .get(k, empty-dict-default), as in the chained
customer.get("attributes", ...).get("partyDetails", ...) accesses. -/
def jGetD (v : JValue) (k : String) : JValue := (jGet v k).getD (.obj [])

/-- Python truthiness of the JSON values occurring here: empty strings,
empty objects and empty arrays are falsy. -/
def jTruthy : JValue → Bool
  | .str s => !(s == "")
  | .obj fields => !fields.isEmpty
  | .arr elems => !elems.isEmpty

/-- Field read d.get(field, "") as used before .upper()/.lower(): the
empty-string default when the key is absent.  A non-string value makes
Python's .upper() raise; this total read returns "" there instead, so
theorems quantifying over stores must exclude such records —
matchFirstNameChecked records that raise path explicitly for the name
search. -/
def getStrD (v : JValue) (k : String) : String :=
  match jGet v k with
  | some (.str s) => s
  | _ => ""

/-- Array-valued field read with [] default (emailContact, phoneContact,
alternativePartyIdReferences; src/api/app.py lines 418, 426, 434). -/
def getArrD (v : JValue) (k : String) : List JValue :=
  match jGet v k with
  | some (.arr l) => l
  | _ => []

/-- needle is an initial run of hay. -/
def charsStartWith : List Char → List Char → Bool
  | [], _ => true
  | _ :: _, [] => false
  | a :: as, b :: bs => a == b && charsStartWith as bs

/-- needle occurs contiguously inside hay. -/
def charsContain (needle : List Char) : List Char → Bool
  | [] => charsStartWith needle []
  | b :: bs => charsStartWith needle (b :: bs) || charsContain needle bs

/-- Python's substring test `needle in hay` on strings. -/
def strContains (hay needle : String) : Bool := charsContain needle.toList hay.toList

/-- Python str.upper(), character-wise (the repo's data is ASCII; Lean's
String.toUpper is the same map but does not evaluate in the kernel). -/
def strUpper (s : String) : String := ⟨s.data.map Char.toUpper⟩

/-- Python str.lower(), character-wise. -/
def strLower (s : String) : String := ⟨s.data.map Char.toLower⟩

/-- customer.get("attributes", ...).get("partyDetails", ...)
(src/api/app.py lines 387, 409, 418, 426, 434). -/
def getPartyDetails (c : JValue) : JValue := jGetD (jGetD c "attributes") "partyDetails"

/-- The individual component of a record (line 387). -/
def getIndividual (c : JValue) : Option JValue := jGet (getPartyDetails c) "individual"

/-- The organisation component of a record (line 409). -/
def getOrganisation (c : JValue) : Option JValue := jGet (getPartyDetails c) "organisation"

/-- A query parameter of search_customers: request.args.get yields none when
the parameter is absent; Python truthiness additionally treats a supplied
empty string as false. -/
def optTruthy : Option String → Bool
  | some s => !(s == "")
  | none => false

/-- The underlying string of a query parameter (only read on branches where
the parameter is truthy). -/
def optStr : Option String → String
  | some s => s
  | none => ""

/-- The search criteria of search_customers (query parameters, src/api/app.py
lines 367-374). -/
structure Criteria where
  firstName : Option String
  lastName : Option String
  registeredName : Option String
  emailAddress : Option String
  phoneNumber : Option String
  partyIdScheme : Option String
  partyIdRef : Option String

/-- The per-record match computation of search_customers (src/api/app.py
lines 383-443).  `resultsLen` is len(results) when the record is examined;
only the no-criterion default branch (line 443) reads it. -/
def matchCustomer (crit : Criteria) (strict : Bool) (limit resultsLen : Nat)
    (c : JValue) : Bool :=
  if optTruthy crit.firstName || optTruthy crit.lastName then
    match getIndividual c with
    | some individual =>
      if jTruthy individual then
        if optTruthy crit.firstName && optTruthy crit.lastName then
          if strict then
            strUpper (getStrD individual "firstName") == strUpper (optStr crit.firstName)
              && (strUpper (getStrD individual "lastName") == strUpper (optStr crit.lastName))
          else
            strContains (strUpper (getStrD individual "firstName")) (strUpper (optStr crit.firstName))
              && strContains (strUpper (getStrD individual "lastName")) (strUpper (optStr crit.lastName))
        else if optTruthy crit.firstName then
          if strict then
            strUpper (getStrD individual "firstName") == strUpper (optStr crit.firstName)
          else
            strContains (strUpper (getStrD individual "firstName")) (strUpper (optStr crit.firstName))
        else
          if strict then
            strUpper (getStrD individual "lastName") == strUpper (optStr crit.lastName)
          else
            strContains (strUpper (getStrD individual "lastName")) (strUpper (optStr crit.lastName))
      else false
    | none => false
  else if optTruthy crit.registeredName then
    match getOrganisation c with
    | some organisation =>
      if jTruthy organisation then
        if strict then
          strUpper (getStrD organisation "registeredName")
            == strUpper (optStr crit.registeredName)
        else
          strContains (strUpper (getStrD organisation "registeredName"))
            (strUpper (optStr crit.registeredName))
      else false
    | none => false
  else if optTruthy crit.emailAddress then
    (getArrD (getPartyDetails c) "emailContact").any
      (fun ec => strLower (optStr crit.emailAddress) == strLower (getStrD ec "emailAddress"))
  else if optTruthy crit.phoneNumber then
    (getArrD (getPartyDetails c) "phoneContact").any
      (fun pc => optStr crit.phoneNumber == getStrD pc "phoneNumber")
  else if optTruthy crit.partyIdScheme && optTruthy crit.partyIdRef then
    (getArrD (getPartyDetails c) "alternativePartyIdReferences").any
      (fun ar =>
        (match jGet ar "partyIdScheme" with
         | some (.str s) => s == optStr crit.partyIdScheme
         | _ => false)
        && (match jGet ar "partyIdRef" with
            | some (.str s) => s == optStr crit.partyIdRef
            | _ => false))
  else
    decide (resultsLen < limit)

/-- The accumulation loop of search_customers (src/api/app.py lines
381-448): scan the store in insertion order, append each match, and stop as
soon as limit results are collected. -/
def searchLoop (crit : Criteria) (strict : Bool) (limit : Nat) :
    List (String × JValue) → List JValue → List JValue
  | [], results => results
  | (_, c) :: rest, results =>
    if matchCustomer crit strict limit results.length c then
      if limit ≤ (results ++ [c]).length then results ++ [c]
      else searchLoop crit strict limit rest (results ++ [c])
    else searchLoop crit strict limit rest results

/-- Outcome of GET /v3/brands/brand/customers. -/
inductive SearchResult where
  | ok (records : List JValue)
  | err (status : Nat) (code title details : String)

/-- search_customers (src/api/app.py lines 363-453), after authentication:
collect the matches, then report 404 when nothing was collected. -/
def search_customers (db : List (String × JValue)) (crit : Criteria)
    (strict : Bool) (limit : Nat) : SearchResult :=
  if (searchLoop crit strict limit db []).isEmpty then
    .err 404 "API-404" "No Matching Customers"
      "No customers found matching the search criteria"
  else .ok (searchLoop crit strict limit db [])

/-- The request with no search criterion supplied. -/
def noCriteria : Criteria :=
  { firstName := none, lastName := none, registeredName := none, emailAddress := none,
    phoneNumber := none, partyIdScheme := none, partyIdRef := none }

/-- A firstName-only query. -/
def firstNameCriteria (q : String) : Criteria :=
  { noCriteria with firstName := some q }

theorem matchCustomer_noCriteria (strict : Bool) (limit len : Nat) (c : JValue) :
    matchCustomer noCriteria strict limit len c = decide (len < limit) := rfl

theorem searchLoop_noCriteria (strict : Bool) (limit : Nat) :
    ∀ (db : List (String × JValue)) (acc : List JValue), acc.length < limit →
      searchLoop noCriteria strict limit db acc = (acc ++ db.map Prod.snd).take limit := by
  intro db
  induction db with
  | nil =>
    intro acc hacc
    simp [searchLoop, List.take_of_length_le (Nat.le_of_lt hacc)]
  | cons hd rest ih =>
    intro acc hacc
    obtain ⟨k, c⟩ := hd
    rw [searchLoop, matchCustomer_noCriteria, decide_eq_true hacc, if_pos rfl]
    by_cases hl : limit ≤ (acc ++ [c]).length
    · rw [if_pos hl]
      have hlim : (acc ++ [c]).length = limit := by
        simp only [List.length_append, List.length_singleton] at hl ⊢
        omega
      rw [List.map_cons,
        show acc ++ c :: rest.map Prod.snd = (acc ++ [c]) ++ rest.map Prod.snd by simp,
        ← hlim, List.take_left]
    · rw [if_neg hl]
      have hlt : (acc ++ [c]).length < limit := by
        simp only [List.length_append, List.length_singleton] at hl ⊢
        omega
      rw [ih (acc ++ [c]) hlt, List.map_cons]
      congr 1
      simp

/-- C8 (amended): a search with no criterion over a non-empty store with
limit ≥ 1 succeeds with exactly the first min(limit, totalRecords) records;
an empty store (or a zero limit) instead produces the 404 NoMatches error
rather than an empty result. -/
theorem c8_no_criteria_returns_min_limit_total
    (db : List (String × JValue)) (strict : Bool) (limit : Nat)
    (hdb : db ≠ []) (hlim : 1 ≤ limit) :
    search_customers db noCriteria strict limit = .ok ((db.map Prod.snd).take limit)
    ∧ ((db.map Prod.snd).take limit).length = min limit db.length := by
  have hloop := searchLoop_noCriteria strict limit db [] (by simpa using hlim)
  simp only [List.nil_append] at hloop
  have hlen : ((db.map Prod.snd).take limit).length = min limit db.length := by
    rw [List.length_take, List.length_map]
  have hpos : 0 < ((db.map Prod.snd).take limit).length := by
    rw [hlen]
    have := List.length_pos.mpr hdb
    omega
  have hne : ((db.map Prod.snd).take limit).isEmpty = false := by
    rcases h : (db.map Prod.snd).take limit with _ | ⟨a, t⟩
    · rw [h] at hpos
      simp at hpos
    · rfl
  refine ⟨?_, hlen⟩
  unfold search_customers
  rw [hloop, hne]
  rfl

theorem c8_no_criteria_returns_min_limit_total_witness :
    search_customers [("a", JValue.obj []), ("b", JValue.obj []), ("c", JValue.obj [])]
        noCriteria false 2
      = .ok (([("a", JValue.obj []), ("b", JValue.obj []), ("c", JValue.obj [])].map
          Prod.snd).take 2)
    ∧ ((([("a", JValue.obj []), ("b", JValue.obj []), ("c", JValue.obj [])].map
          Prod.snd).take 2).length
        = min 2 ([("a", JValue.obj []), ("b", JValue.obj []), ("c", JValue.obj [])].length)) :=
  c8_no_criteria_returns_min_limit_total
    [("a", JValue.obj []), ("b", JValue.obj []), ("c", JValue.obj [])] false 2
    (List.cons_ne_nil _ _) (by omega)

/-- C8 counterexample: on an empty store a no-criterion search yields the
404 NoMatches error, not an empty record list — and a zero limit over a
non-empty store errors the same way although min(limit, total) = 0. -/
theorem c8_counterexample_empty_store_errors :
    search_customers [] noCriteria false 20
      = .err 404 "API-404" "No Matching Customers"
          "No customers found matching the search criteria"
    ∧ search_customers [("a", JValue.obj [])] noCriteria false 0
      = .err 404 "API-404" "No Matching Customers"
          "No customers found matching the search criteria" :=
  ⟨rfl, rfl⟩

/-- The firstName-only match predicate: the elif first_name branch of the
name matching (src/api/app.py lines 396-400) together with the individual
presence and truthiness checks of lines 387-388. -/
def matchFirstName (strict : Bool) (q : String) (c : JValue) : Bool :=
  match getIndividual c with
  | some individual =>
    if jTruthy individual then
      if strict then strUpper (getStrD individual "firstName") == strUpper q
      else strContains (strUpper (getStrD individual "firstName")) (strUpper q)
    else false
  | none => false

/-- The firstName-only match computation with Python's raise paths made
explicit (src/api/app.py lines 386-400): none exactly where the code
raises on the record — the record itself, a present attributes value, or a
present partyDetails value that is not a dict (AttributeError on .get), a
truthy individual that is not a dict (AttributeError on .get at line 398),
or a present firstName value that is not a string (AttributeError on
.upper() at line 398) — and some m where the code sets match = m. -/
def matchFirstNameChecked (strict : Bool) (q : String) (c : JValue) : Option Bool :=
  match c with
  | .obj fields =>
    match (alookup fields "attributes").getD (.obj []) with
    | .obj attrs =>
      match (alookup attrs "partyDetails").getD (.obj []) with
      | .obj pd =>
        match alookup pd "individual" with
        | none => some false
        | some v =>
          if jTruthy v then
            match v with
            | .obj ind =>
              match (alookup ind "firstName").getD (.str "") with
              | .str s =>
                some (if strict then strUpper s == strUpper q
                      else strContains (strUpper s) (strUpper q))
              | _ => none
            | _ => none
          else some false
      | _ => none
    | _ => none
  | _ => none

theorem matchFirstNameChecked_eq (strict : Bool) (q : String) (c : JValue)
    (hsafe : (matchFirstNameChecked strict q c).isSome = true) :
    matchFirstNameChecked strict q c = some (matchFirstName strict q c) := by
  rcases c with s | fields | a
  · simp [matchFirstNameChecked] at hsafe
  · rcases hav : alookup fields "attributes" with _ | v
    · simp [matchFirstNameChecked, matchFirstName, getIndividual, getPartyDetails, jGetD, jGet,
        hav, alookup]
    · rcases v with s1 | attrs | a1
      · simp [matchFirstNameChecked, hav] at hsafe
      · rcases hpd : alookup attrs "partyDetails" with _ | w
        · simp [matchFirstNameChecked, matchFirstName, getIndividual, getPartyDetails, jGetD,
            jGet, hav, hpd, alookup]
        · rcases w with s2 | pd | a2
          · simp [matchFirstNameChecked, hav, hpd] at hsafe
          · rcases hind : alookup pd "individual" with _ | v2
            · simp [matchFirstNameChecked, matchFirstName, getIndividual, getPartyDetails,
                jGetD, jGet, hav, hpd, hind]
            · by_cases hjt : jTruthy v2 = true
              · rcases v2 with s3 | ind | a3
                · simp [matchFirstNameChecked, hav, hpd, hind, hjt] at hsafe
                · rcases hfn : alookup ind "firstName" with _ | w2
                  · simp [matchFirstNameChecked, matchFirstName, getIndividual,
                      getPartyDetails, jGetD, jGet, getStrD, hav, hpd, hind, hfn, hjt]
                  · rcases w2 with s4 | o4 | a4
                    · simp [matchFirstNameChecked, matchFirstName, getIndividual,
                        getPartyDetails, jGetD, jGet, getStrD, hav, hpd, hind, hfn, hjt]
                    · simp [matchFirstNameChecked, hav, hpd, hind, hfn, hjt] at hsafe
                    · simp [matchFirstNameChecked, hav, hpd, hind, hfn, hjt] at hsafe
                · simp [matchFirstNameChecked, hav, hpd, hind, hjt] at hsafe
              · rw [Bool.not_eq_true] at hjt
                simp [matchFirstNameChecked, matchFirstName, getIndividual, getPartyDetails,
                  jGetD, jGet, hav, hpd, hind, hjt]
          · simp [matchFirstNameChecked, hav, hpd] at hsafe
      · simp [matchFirstNameChecked, hav] at hsafe
  · simp [matchFirstNameChecked] at hsafe

theorem matchCustomer_firstName (q : String) (hq : q ≠ "") (strict : Bool)
    (limit len : Nat) (c : JValue) :
    matchCustomer (firstNameCriteria q) strict limit len c = matchFirstName strict q c := by
  have hb : (q == "") = false := by
    rw [beq_eq_false_iff_ne]
    exact hq
  unfold matchCustomer matchFirstName firstNameCriteria noCriteria
  simp only [optTruthy, optStr, hb, Bool.not_false, Bool.true_or, Bool.and_false,
    Bool.false_eq_true, if_false, Bool.not_true, if_true]

theorem searchLoop_filter (crit : Criteria) (strict : Bool) (limit : Nat)
    (p : JValue → Bool)
    (hp : ∀ len c, matchCustomer crit strict limit len c = p c) :
    ∀ (db : List (String × JValue)) (acc : List JValue), acc.length < limit →
      searchLoop crit strict limit db acc
        = (acc ++ (db.map Prod.snd).filter p).take limit := by
  intro db
  induction db with
  | nil =>
    intro acc hacc
    simp [searchLoop, List.take_of_length_le (Nat.le_of_lt hacc)]
  | cons hd rest ih =>
    intro acc hacc
    obtain ⟨k, c⟩ := hd
    rw [searchLoop, hp acc.length c, List.map_cons, List.filter_cons]
    rcases hpc : p c with _ | _
    · simp only [Bool.false_eq_true, if_false]
      exact ih acc hacc
    · simp only [if_true]
      by_cases hl : limit ≤ (acc ++ [c]).length
      · rw [if_pos hl]
        have hlim : (acc ++ [c]).length = limit := by
          simp only [List.length_append, List.length_singleton] at hl ⊢
          omega
        rw [show acc ++ c :: (rest.map Prod.snd).filter p
              = (acc ++ [c]) ++ (rest.map Prod.snd).filter p by simp,
          ← hlim, List.take_left]
      · rw [if_neg hl]
        have hlt : (acc ++ [c]).length < limit := by
          simp only [List.length_append, List.length_singleton] at hl ⊢
          omega
        rw [ih (acc ++ [c]) hlt]
        congr 1
        simp

/-- C9 (amended): restricted to stores on which the name search raises on
no record — matchFirstNameChecked, the raise-aware embedding of lines
386-400, is some on every stored record — for a non-empty firstName query
and limit ≥ 1: the per-record outcome is exactly matchFirstName (first
conjunct), that is, a record matches exactly when it has a truthy
individual component whose firstName equals the query up to case
(strictMatch = true) or contains it as a case-insensitive substring
(strictMatch = false) — so organization records never match — and the
search returns the first min(limit, matches) matching records in store
order, failing with the 404 NoMatches error when no record matches instead
of returning an empty result.  Outside the hypothesis (a truthy non-dict
individual or a non-string firstName in some record) the Python handler
raises instead of answering. -/
theorem c9_first_name_search_semantics
    (db : List (String × JValue)) (q : String) (strict : Bool) (limit : Nat)
    (hq : q ≠ "") (hlim : 1 ≤ limit)
    (hsafe : ∀ c ∈ db.map Prod.snd, (matchFirstNameChecked strict q c).isSome = true) :
    (∀ c ∈ db.map Prod.snd,
        matchFirstNameChecked strict q c = some (matchFirstName strict q c))
    ∧ (search_customers db (firstNameCriteria q) strict limit
      = if ((db.map Prod.snd).filter (matchFirstName strict q)).isEmpty
        then .err 404 "API-404" "No Matching Customers"
               "No customers found matching the search criteria"
        else .ok (((db.map Prod.snd).filter (matchFirstName strict q)).take limit))
    ∧ ∀ c ∈ (db.map Prod.snd).filter (matchFirstName strict q),
        ∃ individual, getIndividual c = some individual ∧ jTruthy individual = true := by
  refine ⟨fun c hc => matchFirstNameChecked_eq strict q c (hsafe c hc), ?_, ?_⟩
  · have hloop := searchLoop_filter (firstNameCriteria q) strict limit
      (matchFirstName strict q) (fun len c => matchCustomer_firstName q hq strict limit len c)
      db [] (by simpa using hlim)
    simp only [List.nil_append] at hloop
    have htake : ∀ (l : List JValue), (l.take limit).isEmpty = l.isEmpty := by
      intro l
      rcases l with _ | ⟨a, t⟩
      · simp
      · rcases limit with _ | k
        · omega
        · simp [List.take]
    unfold search_customers
    rw [hloop, htake]
  · intro c hc
    have hm := List.of_mem_filter hc
    unfold matchFirstName at hm
    rcases hgi : getIndividual c with _ | individual
    · rw [hgi] at hm
      exact Bool.noConfusion hm
    · rw [hgi] at hm
      refine ⟨individual, rfl, ?_⟩
      by_contra hjt
      rw [Bool.not_eq_true] at hjt
      simp [hjt] at hm

/-- An individual record with firstName "John" and the given id, used for
the C9 instances. -/
def johnRecord (idv : String) : JValue :=
  .obj [("id", .str idv),
        ("attributes", .obj [("partyDetails", .obj
          [("individual", .obj [("firstName", .str "John")])])])]

/-- An organization record, used for the C9 instances. -/
def orgRecord : JValue :=
  .obj [("id", .str "o1"),
        ("attributes", .obj [("partyDetails", .obj
          [("organisation", .obj [("registeredName", .str "Tech Solutions Pty Ltd")])])])]

/-- C9 counterexample to the claim as stated: on a store holding only an
organization record, a firstName search returns the 404 NoMatches error,
not the (empty) set of matching individual records; and with limit 1 over a
store holding two distinct matching "John" records, only the first is
returned although the second also matches. -/
theorem c9_counterexample_error_and_limit_truncation :
    search_customers [("o1", orgRecord)] (firstNameCriteria "John") true 20
      = .err 404 "API-404" "No Matching Customers"
          "No customers found matching the search criteria"
    ∧ search_customers [("1", johnRecord "1"), ("2", johnRecord "2")]
        (firstNameCriteria "John") true 1
      = .ok [johnRecord "1"]
    ∧ matchFirstName true "John" (johnRecord "2") = true
    ∧ getStrD (johnRecord "1") "id" ≠ getStrD (johnRecord "2") "id" :=
  ⟨rfl, rfl, rfl, by decide⟩

theorem c9_first_name_search_semantics_witness :
    (∀ c ∈ [("1", johnRecord "1"), ("o1", orgRecord)].map Prod.snd,
        matchFirstNameChecked false "john" c = some (matchFirstName false "john" c))
    ∧ (search_customers [("1", johnRecord "1"), ("o1", orgRecord)]
        (firstNameCriteria "john") false 5
      = if (([("1", johnRecord "1"), ("o1", orgRecord)].map Prod.snd).filter
            (matchFirstName false "john")).isEmpty
        then .err 404 "API-404" "No Matching Customers"
               "No customers found matching the search criteria"
        else .ok ((([("1", johnRecord "1"), ("o1", orgRecord)].map Prod.snd).filter
               (matchFirstName false "john")).take 5))
    ∧ ∀ c ∈ ([("1", johnRecord "1"), ("o1", orgRecord)].map Prod.snd).filter
          (matchFirstName false "john"),
        ∃ individual, getIndividual c = some individual ∧ jTruthy individual = true :=
  c9_first_name_search_semantics [("1", johnRecord "1"), ("o1", orgRecord)] "john" false 5
    (by decide) (by omega) (by decide)

end ApiStub
